import Mathlib

/-!
# Model of the message dispatch and task-lifecycle subsystem of onedotnet/platform

This file embeds, in Lean, the core of `pkg/middleware/mq/rabbitmq.go` together
with the task data model of `internal/model` (the `MessageStatus` enum, the
`Task` record and the `BaseMessage` envelope), and proves properties of the
`SendMessage` / `AckMessage` operations.

Modelling conventions:
* External, failure-prone calls (broker dial and publish, `json.Marshal` of an
  arbitrary `interface{}` body, the task store's `CreateTask` / `UpdateTask`)
  are modelled by oracles: an environment record fixes the outcome of each call
  the Go code makes, and the model follows the source's control flow on those
  outcomes.  `none` means the Go call returned a nil error; `some e` means it
  failed with error text `e`.
* The persistent task store is a list of `Task` records; `GetTaskByMessageID`
  is a first-match lookup, `UpdateTask` replaces the records with the same
  `message_id` (the store key used by this subsystem).
* Every repository / broker call the code performs is recorded in an effect
  trace, so "no publish was attempted" or "no CreateTask call occurs" are
  statements about the trace.
* `SendMessage` holds the instance mutex and its inline reconnect re-locks
  that same non-reentrant mutex, so the reconnect branch never returns in the
  source; a call's outcome is therefore either a returned result or the
  `blocked` outcome, which records the store contents and the (empty) set of
  calls made before blocking.
* `time.Time` values are modelled by their RFC3339 rendering (an opaque
  string); clock readings irrelevant to the claims are plain naturals.
* Go `float64` values appearing in decoded JSON are modelled as rationals
  (exact for every integer the decoder widens).
-/

namespace Platform

/-! ## JSON values and the Go-side value universe (Envelope Codec) -/

mutual

/-- JSON values as produced by `encoding/json`.  `JsonFields` is an object's
field list (insertion order preserved, as `json.Marshal` emits struct fields
in declaration order). -/
inductive Json where
  | null : Json
  | bool (b : Bool) : Json
  | num (q : ℚ) : Json
  | str (s : String) : Json
  | arr (xs : JsonList) : Json
  | obj (fs : JsonFields) : Json
deriving DecidableEq

inductive JsonList where
  | nil : JsonList
  | cons (v : Json) (tl : JsonList) : JsonList
deriving DecidableEq

inductive JsonFields where
  | nil : JsonFields
  | cons (k : String) (v : Json) (tl : JsonFields) : JsonFields
deriving DecidableEq

end

mutual

/-- The JSON-encodable Go values a caller can put in a message body:
`nil`, booleans, integers, 64-bit floats (modelled as rationals), strings,
slices and string-keyed maps.  (Go values `json.Marshal` rejects — channels,
functions, NaN — never reach the codec; in the send path the marshal outcome
is an oracle, see `SendEnv.marshal`.) -/
inductive GoValue where
  | null : GoValue
  | bool (b : Bool) : GoValue
  | int (n : ℤ) : GoValue
  | float (q : ℚ) : GoValue
  | str (s : String) : GoValue
  | arr (xs : GoList) : GoValue
  | obj (fs : GoFields) : GoValue
deriving DecidableEq

inductive GoList where
  | nil : GoList
  | cons (v : GoValue) (tl : GoList) : GoList
deriving DecidableEq

inductive GoFields where
  | nil : GoFields
  | cons (k : String) (v : GoValue) (tl : GoFields) : GoFields
deriving DecidableEq

end

mutual

/-- `json.Marshal` of a Go value: integers and floats both become JSON
numbers. -/
def encodeGoValue : GoValue → Json
  | .null => .null
  | .bool b => .bool b
  | .int n => .num (n : ℚ)
  | .float q => .num q
  | .str s => .str s
  | .arr xs => .arr (encodeGoList xs)
  | .obj fs => .obj (encodeGoFields fs)

def encodeGoList : GoList → JsonList
  | .nil => .nil
  | .cons v tl => .cons (encodeGoValue v) (encodeGoList tl)

def encodeGoFields : GoFields → JsonFields
  | .nil => .nil
  | .cons k v tl => .cons k (encodeGoValue v) (encodeGoFields tl)

end

mutual

/-- `json.Unmarshal` into an `interface\x7b\x7d`: every JSON number becomes a
Go `float64` (numeric widening). -/
def decodeJson : Json → GoValue
  | .null => .null
  | .bool b => .bool b
  | .num q => .float q
  | .str s => .str s
  | .arr xs => .arr (decodeJsonList xs)
  | .obj fs => .obj (decodeJsonFields fs)

def decodeJsonList : JsonList → GoList
  | .nil => .nil
  | .cons v tl => .cons (decodeJson v) (decodeJsonList tl)

def decodeJsonFields : JsonFields → GoFields
  | .nil => .nil
  | .cons k v tl => .cons k (decodeJson v) (decodeJsonFields tl)

end

mutual

/-- The decoder's native numeric widening, as a map on Go values: every
integer becomes the equal 64-bit float, everything else is untouched. -/
def widen : GoValue → GoValue
  | .null => .null
  | .bool b => .bool b
  | .int n => .float (n : ℚ)
  | .float q => .float q
  | .str s => .str s
  | .arr xs => .arr (widenList xs)
  | .obj fs => .obj (widenFields fs)

def widenList : GoList → GoList
  | .nil => .nil
  | .cons v tl => .cons (widen v) (widenList tl)

def widenFields : GoFields → GoFields
  | .nil => .nil
  | .cons k v tl => .cons k (widen v) (widenFields tl)

end

/-- First match for a key in an object's field list (`encoding/json` object
field access). -/
def JsonFields.lookupField : JsonFields → String → Option Json
  | .nil, _ => none
  | .cons k v tl, key => if k == key then some v else tl.lookupField key

/-! ## The envelope (`model.BaseMessage`, internal/model/base.go) -/

/-- `model.BaseMessage`: the wire envelope.  `MessageCreatedAt` is the
RFC3339 rendering of the `time.Time` field. -/
structure BaseMessage where
  MessageID : String
  MessageType : String
  MessageCreatedAt : String
  SentBy : String
  MessageBody : GoValue
  MessageAck : Bool
deriving DecidableEq

/-- `json.Marshal` of a `BaseMessage`: an object with the six tagged fields,
in struct declaration order. -/
def marshalBaseMessage (m : BaseMessage) : Json :=
  .obj (.cons "message_id" (.str m.MessageID)
    (.cons "message_type" (.str m.MessageType)
      (.cons "message_created_time" (.str m.MessageCreatedAt)
        (.cons "sentby" (.str m.SentBy)
          (.cons "message_body" (encodeGoValue m.MessageBody)
            (.cons "message_ack" (.bool m.MessageAck) .nil))))))

/-- Reading a string-typed struct field during `json.Unmarshal`: an absent
field leaves the zero value, a present field must be a JSON string. -/
def fieldAsStr : Option Json → Option String
  | none => some ""
  | some (.str s) => some s
  | some _ => none

/-- Reading a bool-typed struct field during `json.Unmarshal`. -/
def fieldAsBool : Option Json → Option Bool
  | none => some false
  | some (.bool b) => some b
  | some _ => none

/-- `json.Unmarshal` of a `BaseMessage`: the typed fields must match their
declared types; the `interface{}` body takes the generic decoding of whatever
JSON value is present (absent means a nil body). -/
def unmarshalBaseMessage : Json → Option BaseMessage
  | .obj fs =>
    match fieldAsStr (fs.lookupField "message_id"),
        fieldAsStr (fs.lookupField "message_type"),
        fieldAsStr (fs.lookupField "message_created_time"),
        fieldAsStr (fs.lookupField "sentby"),
        fieldAsBool (fs.lookupField "message_ack") with
    | some mid, some mty, some mct, some sby, some ack =>
      some { MessageID := mid, MessageType := mty, MessageCreatedAt := mct,
             SentBy := sby,
             MessageBody := ((fs.lookupField "message_body").map decodeJson).getD .null,
             MessageAck := ack }
    | _, _, _, _, _ => none
  | _ => none

/-! ## Task data model (internal/model/base.go) -/

/-- `model.MessageStatus`: pending / delivered / failed / acknowledged. -/
inductive MessageStatus where
  | pending
  | delivered
  | failed
  | acked
deriving DecidableEq

/-- `model.Task`: the delivery-tracking record.  Fields not touched by this
subsystem's logic (gorm bookkeeping, `UUID`, `NextRetryTime`) are omitted;
timestamps are clock readings (naturals). -/
structure Task where
  messageID : String := ""
  messageType : String := ""
  queueName : String := ""
  status : MessageStatus := .pending
  retryCount : Nat := 0
  error : String := ""
  payload : String := ""
  result : String := ""
  sentBy : String := ""
  ackedAt : Option Nat := none
deriving DecidableEq

/-- The persistent task store, as consumed through the repository contract. -/
abbrev TaskStore := List Task

/-- `Repository.CreateTask`: inserts a new row. -/
def TaskStore.createTask (store : TaskStore) (t : Task) : TaskStore :=
  List.append store [t]

/-- `Repository.GetTaskByMessageID`: first row whose `message_id` matches,
`none` when absent (gorm `First` with `ErrRecordNotFound`). -/
def TaskStore.getTaskByMessageID (store : TaskStore) (messageID : String) : Option Task :=
  List.find? (fun t => t.messageID == messageID) store

/-- `Repository.UpdateTask` (gorm `Save`): replaces the stored row(s) keyed
like the given task. -/
def TaskStore.updateTask (store : TaskStore) (t : Task) : TaskStore :=
  List.map (fun u => if u.messageID == t.messageID then t else u) store

/-! ## The RabbitMQ service (pkg/middleware/mq/rabbitmq.go) -/

/-- The repository / broker calls `SendMessage` and `AckMessage` make, in
order.  `reconnect` stands for a completed inline `Connect()` invocation; no
modelled execution ever records one, because the only call site (the publish
path) deadlocks before `Connect` runs — the constructor is kept so that
"performs no broker interaction" is expressible over traces. -/
inductive Effect where
  | reconnect
  | createTask (t : Task)
  | publish (bytes : String)
  | updateTask (t : Task)
  | getTask (messageID : String)
deriving DecidableEq

/-- Immutable identity of a `RabbitMQService` instance (set once in
`NewRabbitMQService`). -/
structure RabbitMQService where
  queueName : String
  nodeName : String
  nodeUUID : String
  exchangeName : String
deriving DecidableEq

/-- The `SentBy` identity: `fmt.Sprintf("%s-%s", s.nodeName, s.nodeUUID)`. -/
def RabbitMQService.sentBy (s : RabbitMQService) : String :=
  s.nodeName ++ "-" ++ s.nodeUUID

deriving instance DecidableEq for Except

/-- Outcomes of the external calls one `SendMessage` invocation makes.
`connAlive` is `s.conn != nil && !s.conn.IsClosed()`; `connect` is the result
`Connect()` would produce if it ran to completion — `SendMessage` never gets
to observe it, because its inline `s.Connect()` re-locks the mutex the method
already holds and blocks forever (see `RabbitMQService.SendMessage`); it is
kept to describe scenarios such as "broker unreachable".  `marshal` is
`json.Marshal` of the envelope built from the caller's
`(messageType, body, needsAck)` (the body is an arbitrary Go `interface{}`,
so the marshal outcome is an oracle); `create`, `publish`, `update` are the
outcomes of `repo.CreateTask`, `channel.PublishWithContext` and the
post-publish `repo.UpdateTask`. -/
structure SendEnv where
  connAlive : Bool
  connect : Option String
  marshal : Except String String
  create : Option String
  publish : Option String
  update : Option String
deriving DecidableEq

/-- What one `SendMessage` call produces: the returned `(messageID, err)`
pair, the store after the call, and the trace of calls made. -/
structure SendResult where
  messageID : String
  error : Option String
  store : TaskStore
  effects : List Effect
deriving DecidableEq

/-- The Pending task row built at rabbitmq.go lines 198-205. -/
def pendingTask (s : RabbitMQService) (messageID messageType payload : String) : Task :=
  { messageID := messageID, messageType := messageType, queueName := s.queueName,
    status := .pending, payload := payload, sentBy := s.sentBy }

/-- `SendMessage` from the serialization step on (rabbitmq.go lines 178-255):
marshal the envelope, create the Pending task, publish, then update the task
to Failed or Delivered; a failed post-publish update is logged only (the
store keeps its previous contents, the returned pair is unchanged). -/
def RabbitMQService.sendCore (s : RabbitMQService) (env : SendEnv) (store : TaskStore)
    (messageID messageType : String) : SendResult :=
  match env.marshal with
  | .error e =>
    { messageID := "", error := some ("failed to marshal message: " ++ e),
      store := store, effects := [] }
  | .ok msgBytes =>
    let task := pendingTask s messageID messageType msgBytes
    match env.create with
    | some e =>
      { messageID := "", error := some ("failed to create task record: " ++ e),
        store := store, effects := [.createTask task] }
    | none =>
      let store1 := TaskStore.createTask store task
      match env.publish with
      | some e =>
        let failedTask : Task := { task with status := .failed, error := e }
        { messageID := "", error := some ("failed to publish message: " ++ e),
          store := if env.update.isSome then store1 else TaskStore.updateTask store1 failedTask,
          effects := [.createTask task, .publish msgBytes, .updateTask failedTask] }
      | none =>
        let deliveredTask : Task := { task with status := .delivered }
        { messageID := messageID, error := none,
          store := if env.update.isSome then store1 else TaskStore.updateTask store1 deliveredTask,
          effects := [.createTask task, .publish msgBytes, .updateTask deliveredTask] }

/-- Outcome of one `SendMessage` call: either the call returns a result, or
it blocks forever, leaving the store as recorded and having made exactly the
recorded repository/broker calls before blocking. -/
inductive SendOutcome where
  | returns (r : SendResult)
  | blocked (store : TaskStore) (effects : List Effect)
deriving DecidableEq

/-- What the caller observes of a `SendMessage` call: the returned
`(messageID, err)` pair, or nothing at all when the call never returns. -/
def SendOutcome.callerView : SendOutcome → Option (String × Option String)
  | .returns r => some (r.messageID, r.error)
  | .blocked _ _ => none

/-- `(*RabbitMQService).SendMessage` (rabbitmq.go lines 167-256).  The method
acquires `s.mu` (line 168) and then checks the connection first.  When the
connection is absent or closed it calls the inline `s.Connect()` (line 173),
whose first statement re-locks the same non-reentrant `sync.Mutex` (line 80):
the goroutine blocks on itself and the call never returns, before any dial,
marshal or store call — so the reconnect-error return at line 174 and the
post-reconnect continuation are unreachable, and `env.connect` is never
consulted.  Only a call finding a live connection proceeds. -/
def RabbitMQService.SendMessage (s : RabbitMQService) (env : SendEnv) (store : TaskStore)
    (messageID messageType : String) : SendOutcome :=
  if env.connAlive then
    .returns (s.sendCore env store messageID messageType)
  else
    .blocked store []

/-- Outcomes of the external calls one `AckMessage` invocation makes.
`marshalResult` is `none` when the caller passed a nil result (no marshal
happens), otherwise the outcome of `json.Marshal(result)`; `update` is the
outcome of `repo.UpdateTask`. -/
structure AckEnv where
  marshalResult : Option (Except String String)
  update : Option String
deriving DecidableEq

/-- What one `AckMessage` call produces. -/
structure AckResult where
  error : Option String
  store : TaskStore
  effects : List Effect
deriving DecidableEq

/-- The tail of `AckMessage` (rabbitmq.go lines 274-286): set status to
Acknowledged and `AckedAt` to now, then persist. -/
def ackUpdate (env : AckEnv) (store : TaskStore) (messageID : String) (now : Nat)
    (task : Task) : AckResult :=
  let updated : Task := { task with status := .acked, ackedAt := some now }
  match env.update with
  | some e =>
    { error := some ("failed to update task status: " ++ e),
      store := store, effects := [.getTask messageID, .updateTask updated] }
  | none =>
    { error := none, store := TaskStore.updateTask store updated,
      effects := [.getTask messageID, .updateTask updated] }

/-- `(*RabbitMQService).AckMessage` (rabbitmq.go lines 259-287): look the task
up by message identity, marshal the optional result, mark Acknowledged.
No broker call appears anywhere on this path. -/
def RabbitMQService.AckMessage (_s : RabbitMQService) (env : AckEnv) (store : TaskStore)
    (messageID : String) (now : Nat) : AckResult :=
  match TaskStore.getTaskByMessageID store messageID with
  | none =>
    { error := some ("failed to find task: task not found with message ID: " ++ messageID),
      store := store, effects := [.getTask messageID] }
  | some task =>
    match env.marshalResult with
    | some (.error e) =>
      { error := some ("failed to marshal result: " ++ e),
        store := store, effects := [.getTask messageID] }
    | some (.ok resultBytes) =>
      ackUpdate env store messageID now { task with result := resultBytes }
    | none =>
      ackUpdate env store messageID now task

/-- Package-level `mq.SendMessage` (rabbitmq.go lines 290-295): guard on the
global singleton. -/
def SendMessage (mqService : Option RabbitMQService) (env : SendEnv) (store : TaskStore)
    (messageID messageType : String) : SendOutcome :=
  match mqService with
  | none =>
    .returns { messageID := "", error := some "RabbitMQ service not initialized",
               store := store, effects := [] }
  | some s => RabbitMQService.SendMessage s env store messageID messageType

/-- Package-level `mq.AckMessage` (rabbitmq.go lines 298-303). -/
def AckMessage (mqService : Option RabbitMQService) (env : AckEnv) (store : TaskStore)
    (messageID : String) (now : Nat) : AckResult :=
  match mqService with
  | none =>
    { error := some "RabbitMQ service not initialized",
      store := store, effects := [] }
  | some s => RabbitMQService.AckMessage s env store messageID now

/-- Durability-first ordering on an effect trace: every broker publish is
preceded by a `CreateTask` of a Pending row.  The flag records whether such a
create has been seen. -/
def durabilityFirst (seen : Bool) : List Effect → Bool
  | [] => true
  | .createTask t :: rest => durabilityFirst (seen || (t.status == .pending)) rest
  | .publish _ :: rest => seen && durabilityFirst seen rest
  | _ :: rest => durabilityFirst seen rest

/-! ## Concrete fixtures -/

/-- A service instance with concrete identity. -/
def svc0 : RabbitMQService :=
  { queueName := "platform-host-1234", nodeName := "host", nodeUUID := "1234",
    exchangeName := "platform-exchange" }

/-- Environment where every external call succeeds. -/
def envOk : SendEnv :=
  { connAlive := true, connect := none, marshal := .ok "payload0",
    create := none, publish := none, update := none }

/-- Ack environment where every external call succeeds and the caller passed
a nil result. -/
def ackEnvOk : AckEnv := { marshalResult := none, update := none }

/-- A stored task that has already failed. -/
def failedTask0 : Task :=
  { messageID := "m-f", messageType := "email", queueName := "platform-host-1234",
    status := .failed, error := "boom", payload := "p", sentBy := "host-1234" }

/-- A stored task that has been delivered and not yet acknowledged. -/
def deliveredTask0 : Task :=
  { messageID := "m-d", messageType := "email", queueName := "platform-host-1234",
    status := .delivered, payload := "p", sentBy := "host-1234" }

/-- Broker unreachable: the connection is gone, and a reconnect could only
fail (the dial outcome is never observed — the call deadlocks first). -/
def envConnFail : SendEnv :=
  { envOk with connAlive := false,
               connect := some "dial tcp 127.0.0.1:5672: connect: connection refused" }

/-- Broker unreachable and, in addition, the caller's body is one
`json.Marshal` would reject. -/
def envConnAndMarshalFail : SendEnv :=
  { envOk with connAlive := false,
               connect := some "dial tcp 127.0.0.1:5672: connect: connection refused",
               marshal := .error "json: unsupported type: chan int" }

/-- The task store rejects the pending-row insert. -/
def envCreateFail : SendEnv := { envOk with create := some "db down" }

/-- The broker rejects the publish. -/
def envPublishFail : SendEnv := { envOk with publish := some "channel/connection is not open" }

/-- The caller's body is one `json.Marshal` rejects (connection fine). -/
def envMarshalFail : SendEnv :=
  { envOk with marshal := .error "json: unsupported type: chan int" }

/-! ## Store lemmas -/

/-- Inserting a task whose `message_id` is not yet in the store makes it the
row `GetTaskByMessageID` finds. -/
theorem getTaskByMessageID_createTask_of_fresh (store : TaskStore) (t : Task)
    (hfresh : TaskStore.getTaskByMessageID store t.messageID = none) :
    TaskStore.getTaskByMessageID (TaskStore.createTask store t) t.messageID = some t := by
  induction store with
  | nil =>
    simp [TaskStore.getTaskByMessageID, TaskStore.createTask]
  | cons u tl ih =>
    rw [TaskStore.getTaskByMessageID, List.find?_eq_none] at hfresh
    have hu : (u.messageID == t.messageID) = false := by
      have := hfresh u (by simp)
      simpa using this
    have htl : TaskStore.getTaskByMessageID tl t.messageID = none := by
      rw [TaskStore.getTaskByMessageID, List.find?_eq_none]
      intro x hx
      exact hfresh x (by simp [hx])
    rw [TaskStore.createTask] at ih ⊢
    simpa [TaskStore.getTaskByMessageID, List.find?, hu] using ih htl

/-- After `UpdateTask` of a row keyed like the one `GetTaskByMessageID`
found, the lookup returns the updated row. -/
theorem getTaskByMessageID_updateTask_of_found (store : TaskStore) (id : String) (task t' : Task)
    (hfind : TaskStore.getTaskByMessageID store id = some task)
    (hid : t'.messageID = task.messageID) :
    TaskStore.getTaskByMessageID (TaskStore.updateTask store t') id = some t' := by
  have hkey : (task.messageID == id) = true := by
    have := List.find?_some hfind
    simpa using this
  induction store with
  | nil => simp [TaskStore.getTaskByMessageID] at hfind
  | cons u tl ih =>
    by_cases hu : (u.messageID == id) = true
    · have hueq : u = task := by
        rw [TaskStore.getTaskByMessageID, List.find?_cons_of_pos tl (by simpa using hu)] at hfind
        exact Option.some.inj hfind
      have ht' : (t'.messageID == id) = true := by
        rw [hid, ← hueq]
        exact hu
      have hrepl : (u.messageID == t'.messageID) = true := by
        rw [hid, ← hueq]
        simp
      simp only [TaskStore.updateTask, List.map, hrepl, if_true]
      rw [TaskStore.getTaskByMessageID,
        List.find?_cons_of_pos (List.map (fun u => if (u.messageID == t'.messageID) = true then t' else u) tl)
          (by simpa using ht')]
    · rw [TaskStore.getTaskByMessageID, List.find?_cons_of_neg tl (by simpa using hu)] at hfind
      have hurepl : (u.messageID == t'.messageID) = false := by
      -- u does not match the key, while the replacement row does
        rw [hid]
        by_contra hcontra
        rw [Bool.not_eq_false, beq_iff_eq] at hcontra
        rw [hcontra] at hu
        exact hu hkey
      simp only [TaskStore.updateTask, List.map, hurepl, if_false]
      rw [TaskStore.getTaskByMessageID,
        List.find?_cons_of_neg (List.map (fun u => if (u.messageID == t'.messageID) = true then t' else u) tl)
          (by simpa using hu)]
      exact ih hfind

/-- Inserting a fresh row and then updating it leaves the updated row as the
one the lookup finds. -/
theorem getTaskByMessageID_create_update (store : TaskStore) (t t' : Task)
    (hfresh : TaskStore.getTaskByMessageID store t.messageID = none)
    (hid : t'.messageID = t.messageID) :
    TaskStore.getTaskByMessageID (TaskStore.updateTask (TaskStore.createTask store t) t')
        t.messageID = some t' :=
  getTaskByMessageID_updateTask_of_found (TaskStore.createTask store t) t.messageID t t'
    (getTaskByMessageID_createTask_of_fresh store t hfresh) hid

/-! ## Envelope codec round trip -/

mutual

theorem decodeJson_encodeGoValue : (v : GoValue) → decodeJson (encodeGoValue v) = widen v
  | .null => rfl
  | .bool _ => rfl
  | .int _ => rfl
  | .float _ => rfl
  | .str _ => rfl
  | .arr xs => by
    simp only [encodeGoValue, decodeJson, widen]
    exact congrArg GoValue.arr (decodeJsonList_encodeGoList xs)
  | .obj fs => by
    simp only [encodeGoValue, decodeJson, widen]
    exact congrArg GoValue.obj (decodeJsonFields_encodeGoFields fs)

theorem decodeJsonList_encodeGoList : (xs : GoList) → decodeJsonList (encodeGoList xs) = widenList xs
  | .nil => rfl
  | .cons v tl => by
    simp only [encodeGoList, decodeJsonList, widenList]
    rw [decodeJson_encodeGoValue v, decodeJsonList_encodeGoList tl]

theorem decodeJsonFields_encodeGoFields :
    (fs : GoFields) → decodeJsonFields (encodeGoFields fs) = widenFields fs
  | .nil => rfl
  | .cons k v tl => by
    simp only [encodeGoFields, decodeJsonFields, widenFields]
    rw [decodeJson_encodeGoValue v, decodeJsonFields_encodeGoFields tl]

end

/-! ## Claim theorems -/

/-- **C9.** Round-trip law for the envelope: JSON-encoding a `BaseMessage`
and decoding the result yields a message with identical `message_id`,
`message_type`, `sentby` and `message_ack`, and a body equal to the original
up to the decoder's numeric widening of integers to 64-bit floats. -/
theorem baseMessage_encode_decode_roundtrip (m : BaseMessage) :
    unmarshalBaseMessage (marshalBaseMessage m)
      = some { MessageID := m.MessageID, MessageType := m.MessageType,
               MessageCreatedAt := m.MessageCreatedAt, SentBy := m.SentBy,
               MessageBody := widen m.MessageBody, MessageAck := m.MessageAck } := by
  simp [marshalBaseMessage, unmarshalBaseMessage, JsonFields.lookupField,
    fieldAsStr, fieldAsBool, decodeJson_encodeGoValue]

/-- **C10.** Before the global singleton is initialized (`mqService` nil),
the package-level `SendMessage` returns a "not initialized" error with an
empty message identity, `AckMessage` returns the same error, and neither
touches the store nor makes any repository or broker call. -/
theorem uninitialized_global_service_rejects_calls (env : SendEnv) (aenv : AckEnv)
    (store : TaskStore) (messageID messageType ackID : String) (now : Nat) :
    SendMessage none env store messageID messageType
        = SendOutcome.returns
            { messageID := "", error := some "RabbitMQ service not initialized",
              store := store, effects := [] } ∧
    AckMessage none aenv store ackID now
        = { error := some "RabbitMQ service not initialized",
            store := store, effects := [] } :=
  ⟨rfl, rfl⟩

/-- **C1** (evidence for the divergence).  In the broker-unreachable scenario
of the claim and of the repository's own `TestSendMessage` — connection
absent and a reconnect that could only fail — `SendMessage` never returns at
all: it holds `s.mu` (rabbitmq.go line 168) and the inline `s.Connect()`
re-locks that same non-reentrant mutex (line 80), self-deadlocking before the
dial, the marshal and the `CreateTask` at line 207.  So no error is returned
to the caller and the store is left without any task record (in particular no
record with status Failed and a non-empty error), while the claim, the spec's
step order (serialize, then persist Pending, then ensure connection) and the
test — which expects a returned error *and* asserts `CreateTask` was called —
all require a returned error and an existing failure record. -/
theorem sendMessage_broker_unreachable_blocks_without_task :
    RabbitMQService.SendMessage svc0 envConnFail [] "m-1" "email"
        = SendOutcome.blocked [] [] :=
  rfl

/-- **C3** (counterexample).  The claim says no operation moves a Failed task
to Acknowledged, but `AckMessage` never inspects the prior status: on a store
holding a Failed task it succeeds and leaves that task Acknowledged. -/
theorem ackMessage_moves_failed_task_to_acked :
    (RabbitMQService.AckMessage svc0 ackEnvOk [failedTask0] "m-f" 7).error = none ∧
    (TaskStore.getTaskByMessageID
        (RabbitMQService.AckMessage svc0 ackEnvOk [failedTask0] "m-f" 7).store "m-f").map Task.status
      = some MessageStatus.acked := by
  exact ⟨rfl, rfl⟩

/-- **C2.** Durability before send: in every `SendMessage` call that returns,
any broker publish is preceded in the call's trace by a `CreateTask` of a
Pending row (`durabilityFirst`); moreover a publish of bytes `b` only happens
when the pending row carrying payload `b` was successfully persisted
(`env.create = none`), and whenever the `CreateTask` call is made and fails,
`SendMessage` returns that store error and no publish is attempted.  (A call
that blocks in the inline reconnect makes no publish either: it records no
calls at all.) -/
theorem sendMessage_durability_before_publish (s : RabbitMQService) (env : SendEnv)
    (store : TaskStore) (messageID messageType : String) (r : SendResult)
    (hr : RabbitMQService.SendMessage s env store messageID messageType
        = SendOutcome.returns r) :
    durabilityFirst false r.effects = true ∧
    (∀ b, Effect.publish b ∈ r.effects →
      env.create = none ∧
      Effect.createTask (pendingTask s messageID messageType b) ∈ r.effects) ∧
    (∀ e, env.create = some e →
      ∀ t, Effect.createTask t ∈ r.effects →
      r.error = some ("failed to create task record: " ++ e) ∧
      ∀ b, Effect.publish b ∉ r.effects) := by
  obtain ⟨alive, conn, mar, cre, pub, upd⟩ := env
  cases alive
  · simp [RabbitMQService.SendMessage] at hr
  · simp [RabbitMQService.SendMessage] at hr
    subst hr
    cases mar <;> cases cre <;> cases pub <;>
      simp [RabbitMQService.sendCore, durabilityFirst, pendingTask]

/-- Witness for `sendMessage_durability_before_publish` at a concrete call
whose `CreateTask` fails. -/
theorem sendMessage_durability_before_publish_witness :
    RabbitMQService.SendMessage svc0 envCreateFail [] "m-1" "email"
        = SendOutcome.returns (RabbitMQService.sendCore svc0 envCreateFail [] "m-1" "email") ∧
    envCreateFail.create = some "db down" ∧
    Effect.createTask (pendingTask svc0 "m-1" "email" "payload0")
        ∈ (RabbitMQService.sendCore svc0 envCreateFail [] "m-1" "email").effects ∧
    (RabbitMQService.sendCore svc0 envCreateFail [] "m-1" "email").error
        = some ("failed to create task record: " ++ "db down") :=
  ⟨rfl, rfl, by decide,
    ((sendMessage_durability_before_publish svc0 envCreateFail [] "m-1" "email"
        (RabbitMQService.sendCore svc0 envCreateFail [] "m-1" "email") rfl).2.2
      "db down" rfl (pendingTask svc0 "m-1" "email" "payload0") (by decide)).1⟩

/-- **C3** (amended).  Every task row `SendMessage` creates is Pending, every
update it issues sets Delivered or Failed (never back to Pending), and every
update `AckMessage` issues sets Acknowledged with a non-nil `acked_at` — but
`AckMessage` applies this to whatever task the lookup finds, without checking
that it was Delivered beforehand. -/
theorem task_status_updates_are_forward (s : RabbitMQService) (env : SendEnv) (aenv : AckEnv)
    (store astore : TaskStore) (messageID messageType ackID : String) (now : Nat) (r : SendResult)
    (hr : RabbitMQService.SendMessage s env store messageID messageType
        = SendOutcome.returns r) :
    (∀ t, Effect.createTask t ∈ r.effects → t.status = MessageStatus.pending) ∧
    (∀ t, Effect.updateTask t ∈ r.effects →
        t.status = MessageStatus.delivered ∨ t.status = MessageStatus.failed) ∧
    (∀ t, Effect.updateTask t ∈ (RabbitMQService.AckMessage s aenv astore ackID now).effects →
        t.status = MessageStatus.acked ∧ t.ackedAt = some now) := by
  obtain ⟨alive, conn, mar, cre, pub, upd⟩ := env
  obtain ⟨amr, aupd⟩ := aenv
  cases alive
  · simp [RabbitMQService.SendMessage] at hr
  · simp [RabbitMQService.SendMessage] at hr
    subst hr
    refine ⟨?_, ?_, ?_⟩
    · cases mar <;> cases cre <;> cases pub <;>
        simp [RabbitMQService.sendCore, pendingTask]
    · cases mar <;> cases cre <;> cases pub <;>
        simp [RabbitMQService.sendCore, pendingTask]
    · cases hfind : TaskStore.getTaskByMessageID astore ackID <;>
        rcases amr with _ | e | b <;> rcases aupd with _ | ue <;>
        simp [RabbitMQService.AckMessage, ackUpdate, hfind]

/-- Witness for `task_status_updates_are_forward` at a concrete
acknowledgment. -/
theorem task_status_updates_are_forward_witness :
    Effect.updateTask { failedTask0 with status := MessageStatus.acked, ackedAt := some 7 }
        ∈ (RabbitMQService.AckMessage svc0 ackEnvOk [failedTask0] "m-f" 7).effects ∧
    (({ failedTask0 with status := MessageStatus.acked, ackedAt := some 7 } : Task).status
          = MessageStatus.acked ∧
      ({ failedTask0 with status := MessageStatus.acked, ackedAt := some 7 } : Task).ackedAt
          = some 7) :=
  ⟨by decide,
    (task_status_updates_are_forward svc0 envOk ackEnvOk [] [failedTask0] "m-1" "email" "m-f" 7
      (RabbitMQService.sendCore svc0 envOk [] "m-1" "email") rfl).2.2 _ (by decide)⟩

/-- **C4.** For a call that reaches the publish step (the call returns —
i.e. a live connection was found — the envelope marshalled, the pending row
persisted): a failed publish returns an empty identity and the publish error
after issuing an update of the task to Failed carrying the error text, and a
successful publish returns the non-empty identity with nil error after
issuing an update of the task to Delivered; in both cases, when the follow-up
store write succeeds (and the identity is fresh, as generated identities
are), the persisted row shows that status. -/
theorem sendMessage_publish_outcome (s : RabbitMQService) (env : SendEnv) (store : TaskStore)
    (messageID messageType msgBytes : String) (r : SendResult)
    (hr : RabbitMQService.SendMessage s env store messageID messageType
        = SendOutcome.returns r)
    (hm : env.marshal = Except.ok msgBytes)
    (hc : env.create = none) (hid : messageID ≠ "") :
    (∀ e, env.publish = some e →
      r.messageID = "" ∧
      r.error = some ("failed to publish message: " ++ e) ∧
      Effect.updateTask { pendingTask s messageID messageType msgBytes with
            status := MessageStatus.failed, error := e } ∈ r.effects ∧
      (env.update = none → TaskStore.getTaskByMessageID store messageID = none →
        (TaskStore.getTaskByMessageID r.store messageID).map Task.status
          = some MessageStatus.failed)) ∧
    (env.publish = none →
      r.messageID = messageID ∧
      r.messageID ≠ "" ∧
      r.error = none ∧
      Effect.updateTask { pendingTask s messageID messageType msgBytes with
            status := MessageStatus.delivered } ∈ r.effects ∧
      (env.update = none → TaskStore.getTaskByMessageID store messageID = none →
        (TaskStore.getTaskByMessageID r.store messageID).map Task.status
          = some MessageStatus.delivered)) := by
  obtain ⟨alive, conn, mar, cre, pub, upd⟩ := env
  cases alive
  · simp [RabbitMQService.SendMessage] at hr
  · simp [RabbitMQService.SendMessage] at hr
    subst hr
    constructor
    · intro e hp
      cases mar <;> cases cre <;> cases pub <;>
        simp_all [RabbitMQService.sendCore] <;>
        (intro hu hfresh; cases upd <;> simp_all [RabbitMQService.sendCore]) <;>
        exact ⟨{ pendingTask s messageID messageType msgBytes with
                 status := MessageStatus.failed, error := e },
          getTaskByMessageID_create_update store (pendingTask s messageID messageType msgBytes)
            { pendingTask s messageID messageType msgBytes with
              status := MessageStatus.failed, error := e } hfresh rfl, rfl⟩
    · intro hp
      cases mar <;> cases cre <;> cases pub <;>
        simp_all [RabbitMQService.sendCore] <;>
        (intro hu hfresh; cases upd <;> simp_all [RabbitMQService.sendCore]) <;>
        exact ⟨{ pendingTask s messageID messageType msgBytes with
                 status := MessageStatus.delivered },
          getTaskByMessageID_create_update store (pendingTask s messageID messageType msgBytes)
            { pendingTask s messageID messageType msgBytes with
              status := MessageStatus.delivered } hfresh rfl, rfl⟩

/-- Witness for `sendMessage_publish_outcome` at a concrete successful call. -/
theorem sendMessage_publish_outcome_witness :
    RabbitMQService.SendMessage svc0 envOk [] "m-1" "email"
        = SendOutcome.returns (RabbitMQService.sendCore svc0 envOk [] "m-1" "email") ∧
    envOk.marshal = Except.ok "payload0" ∧ envOk.create = none ∧ ("m-1" : String) ≠ "" ∧
    envOk.publish = none ∧
    (RabbitMQService.sendCore svc0 envOk [] "m-1" "email").messageID = "m-1" :=
  ⟨rfl, rfl, rfl, by decide, rfl,
    ((sendMessage_publish_outcome svc0 envOk [] "m-1" "email" "payload0"
        (RabbitMQService.sendCore svc0 envOk [] "m-1" "email") rfl rfl rfl (by decide)).2
      rfl).1⟩

/-- **C5.** What the caller observes of `SendMessage` — the returned
`(messageID, err)` pair, or no return at all — is independent of the
post-publish `UpdateTask` outcome, and for calls reaching the publish step it
is a function of the publish outcome alone: the publish error (prefixed) with
an empty identity on failure, nil error with the generated identity on
success. -/
theorem sendMessage_result_determined_by_publish (s : RabbitMQService) (env : SendEnv)
    (store : TaskStore) (messageID messageType : String) :
    (∀ x, (RabbitMQService.SendMessage s { env with update := x } store
              messageID messageType).callerView
        = (RabbitMQService.SendMessage s env store messageID messageType).callerView) ∧
    (∀ msgBytes r,
      RabbitMQService.SendMessage s env store messageID messageType = SendOutcome.returns r →
      env.marshal = Except.ok msgBytes → env.create = none →
      r.error = Option.map (fun e => "failed to publish message: " ++ e) env.publish ∧
      r.messageID = if env.publish = none then messageID else "") := by
  obtain ⟨alive, conn, mar, cre, pub, upd⟩ := env
  constructor
  · intro x
    cases alive <;> cases mar <;> cases cre <;> cases pub <;>
      simp [RabbitMQService.SendMessage, RabbitMQService.sendCore, SendOutcome.callerView]
  · intro msgBytes r hr hm hc
    cases alive
    · simp [RabbitMQService.SendMessage] at hr
    · simp [RabbitMQService.SendMessage] at hr
      subst hr
      cases mar <;> cases cre <;> cases pub <;>
        simp_all [RabbitMQService.sendCore]

/-- Witness for `sendMessage_result_determined_by_publish` at a concrete
successful call. -/
theorem sendMessage_result_determined_by_publish_witness :
    RabbitMQService.SendMessage svc0 envOk [] "m-1" "email"
        = SendOutcome.returns (RabbitMQService.sendCore svc0 envOk [] "m-1" "email") ∧
    envOk.marshal = Except.ok "payload0" ∧ envOk.create = none ∧
    (RabbitMQService.sendCore svc0 envOk [] "m-1" "email").error
        = Option.map (fun e => "failed to publish message: " ++ e) envOk.publish :=
  ⟨rfl, rfl, rfl,
    ((sendMessage_result_determined_by_publish svc0 envOk [] "m-1" "email").2
      "payload0" (RabbitMQService.sendCore svc0 envOk [] "m-1" "email") rfl rfl rfl).1⟩

/-- **C6** (amended).  When the envelope cannot be marshalled, no task record
is ever persisted and no `CreateTask`, `UpdateTask` or publish call is made:
a call that finds a live connection returns the serialization error with an
empty identity and the store untouched, while a call that finds the
connection absent or closed never returns at all (it self-deadlocks re-locking
`s.mu` in the inline `Connect()`), likewise leaving the store untouched with
no calls made. -/
theorem sendMessage_marshal_failure_no_task_persisted (s : RabbitMQService) (env : SendEnv)
    (store : TaskStore) (messageID messageType e : String)
    (hm : env.marshal = Except.error e) :
    (∀ r, RabbitMQService.SendMessage s env store messageID messageType
        = SendOutcome.returns r →
      r.store = store ∧
      r.messageID = "" ∧
      (∀ t, Effect.createTask t ∉ r.effects) ∧
      (∀ t, Effect.updateTask t ∉ r.effects) ∧
      (∀ b, Effect.publish b ∉ r.effects) ∧
      r.error = some ("failed to marshal message: " ++ e)) ∧
    (env.connAlive = false →
      RabbitMQService.SendMessage s env store messageID messageType
        = SendOutcome.blocked store []) := by
  obtain ⟨alive, conn, mar, cre, pub, upd⟩ := env
  constructor
  · intro r hr
    cases alive
    · simp [RabbitMQService.SendMessage] at hr
    · simp [RabbitMQService.SendMessage] at hr
      subst hr
      cases mar <;> cases cre <;> cases pub <;> simp_all [RabbitMQService.sendCore]
  · intro halive
    cases alive
    · simp [RabbitMQService.SendMessage]
    · simp at halive

/-- Witness for `sendMessage_marshal_failure_no_task_persisted` at a concrete
unserializable body with a live connection. -/
theorem sendMessage_marshal_failure_no_task_persisted_witness :
    envMarshalFail.marshal = Except.error "json: unsupported type: chan int" ∧
    RabbitMQService.SendMessage svc0 envMarshalFail [] "m-1" "email"
        = SendOutcome.returns (RabbitMQService.sendCore svc0 envMarshalFail [] "m-1" "email") ∧
    (RabbitMQService.sendCore svc0 envMarshalFail [] "m-1" "email").store = [] ∧
    (RabbitMQService.sendCore svc0 envMarshalFail [] "m-1" "email").error
        = some ("failed to marshal message: " ++ "json: unsupported type: chan int") := by
  have h := (sendMessage_marshal_failure_no_task_persisted svc0 envMarshalFail [] "m-1" "email"
      "json: unsupported type: chan int" rfl).1
    (RabbitMQService.sendCore svc0 envMarshalFail [] "m-1" "email") rfl
  exact ⟨rfl, rfl, h.1, h.2.2.2.2.2⟩

/-- **C7.** A failing `AckMessage` mutates nothing: on an unknown message
identity it returns the not-found error with the store untouched and no
`UpdateTask` call, and on a found task whose non-nil result cannot be
marshalled it returns the serialization error with the store untouched and no
`UpdateTask` call. -/
theorem ackMessage_failure_no_mutation (s : RabbitMQService) (env : AckEnv) (store : TaskStore)
    (messageID : String) (now : Nat) :
    (TaskStore.getTaskByMessageID store messageID = none →
      (RabbitMQService.AckMessage s env store messageID now).error
          = some ("failed to find task: task not found with message ID: " ++ messageID) ∧
      (RabbitMQService.AckMessage s env store messageID now).store = store ∧
      ∀ t, Effect.updateTask t ∉ (RabbitMQService.AckMessage s env store messageID now).effects) ∧
    (∀ task e, TaskStore.getTaskByMessageID store messageID = some task →
      env.marshalResult = some (Except.error e) →
      (RabbitMQService.AckMessage s env store messageID now).error
          = some ("failed to marshal result: " ++ e) ∧
      (RabbitMQService.AckMessage s env store messageID now).store = store ∧
      ∀ t, Effect.updateTask t ∉ (RabbitMQService.AckMessage s env store messageID now).effects) := by
  constructor
  · intro hfind
    simp [RabbitMQService.AckMessage, hfind]
  · intro task e hfind hmr
    simp [RabbitMQService.AckMessage, hfind, hmr]

/-- Witness for `ackMessage_failure_no_mutation` on an empty store. -/
theorem ackMessage_failure_no_mutation_witness :
    TaskStore.getTaskByMessageID [] "m-x" = none ∧
    (RabbitMQService.AckMessage svc0 ackEnvOk [] "m-x" 7).error
        = some ("failed to find task: task not found with message ID: " ++ "m-x") :=
  ⟨rfl, ((ackMessage_failure_no_mutation svc0 ackEnvOk [] "m-x" 7).1 rfl).1⟩

/-- **C8.** A successful `AckMessage` on a found task with a nil or
serializable result sets its status to Acknowledged and `acked_at` to the
non-nil current timestamp, stores the serialized result when one was given,
persists the update, and performs no broker interaction (no publish, no
reconnect). -/
theorem ackMessage_success_acknowledges_task (s : RabbitMQService) (env : AckEnv)
    (store : TaskStore) (messageID : String) (now : Nat) (task : Task)
    (hfind : TaskStore.getTaskByMessageID store messageID = some task)
    (hupd : env.update = none) :
    (env.marshalResult = none →
      (RabbitMQService.AckMessage s env store messageID now).error = none ∧
      TaskStore.getTaskByMessageID (RabbitMQService.AckMessage s env store messageID now).store
          messageID
        = some { task with status := MessageStatus.acked, ackedAt := some now } ∧
      (∀ b, Effect.publish b ∉ (RabbitMQService.AckMessage s env store messageID now).effects) ∧
      Effect.reconnect ∉ (RabbitMQService.AckMessage s env store messageID now).effects) ∧
    (∀ resultBytes, env.marshalResult = some (Except.ok resultBytes) →
      (RabbitMQService.AckMessage s env store messageID now).error = none ∧
      TaskStore.getTaskByMessageID (RabbitMQService.AckMessage s env store messageID now).store
          messageID
        = some { task with
                 result := resultBytes, status := MessageStatus.acked, ackedAt := some now } ∧
      (∀ b, Effect.publish b ∉ (RabbitMQService.AckMessage s env store messageID now).effects) ∧
      Effect.reconnect ∉ (RabbitMQService.AckMessage s env store messageID now).effects) := by
  constructor
  · intro hmr
    simp only [RabbitMQService.AckMessage, hfind, hmr, ackUpdate, hupd]
    refine ⟨by trivial, ?_, by simp, by simp⟩
    exact getTaskByMessageID_updateTask_of_found store messageID task _ hfind rfl
  · intro resultBytes hmr
    simp only [RabbitMQService.AckMessage, hfind, hmr, ackUpdate, hupd]
    refine ⟨by trivial, ?_, by simp, by simp⟩
    exact getTaskByMessageID_updateTask_of_found store messageID task _ hfind rfl

/-- Witness for `ackMessage_success_acknowledges_task` on a concrete
delivered task. -/
theorem ackMessage_success_acknowledges_task_witness :
    TaskStore.getTaskByMessageID [deliveredTask0] "m-d" = some deliveredTask0 ∧
    ackEnvOk.update = none ∧ ackEnvOk.marshalResult = none ∧
    TaskStore.getTaskByMessageID
        (RabbitMQService.AckMessage svc0 ackEnvOk [deliveredTask0] "m-d" 7).store "m-d"
      = some { deliveredTask0 with status := MessageStatus.acked, ackedAt := some 7 } := by
  have h := (ackMessage_success_acknowledges_task svc0 ackEnvOk [deliveredTask0] "m-d" 7
    deliveredTask0 rfl rfl).1 rfl
  exact ⟨rfl, rfl, rfl, h.2.1⟩

/-- **C6** (counterexample).  A call whose body cannot be serialized does not
always return a serialization error: when the connection is down, the
connection check precedes the marshal step and the inline `Connect()`
self-deadlocks on `s.mu`, so the call never returns anything — in particular
no serialization error — at this concrete input. -/
theorem sendMessage_unserializable_body_broker_down_blocks :
    RabbitMQService.SendMessage svc0 envConnAndMarshalFail [] "m-1" "email"
        = SendOutcome.blocked [] [] :=
  rfl

end Platform
